import Mathlib

/-!
Shallow embedding of the session analysis pipeline of
`improved_server.py` (Teacher Assessment Platform).

Modelling conventions:
- Python dicts with string keys and numeric values are association lists
  `List (String × Rat)`; `dictGet` models `d[k]` where a missing key is a
  `KeyError`, rendered as `none`; `dictGetD` models `d.get(k, default)`.
- Python floats are embedded as `Rat`; `round(x, 1)` is embedded as
  `round1`, rounding to one decimal place with ties to even.
- A raised exception in a fallible computation is rendered as `none`
  (`Option`), and the enclosing try/except as a `match` on that option.
- WebSocket connections are opaque handles (`Nat`); the side effect of
  `websocket.send_text` is rendered as the list of (connection, message)
  deliveries an operation performs.
-/

namespace TeacherAssessment

/-- Association-list lookup: models Python `d[k]` on a dict whose entries
are listed most-recently-inserted first; `none` models a `KeyError`. -/
def dictGet {α : Type} (m : List (String × α)) (k : String) : Option α :=
  match m with
  | [] => none
  | (k2, v) :: rest => if k2 = k then some v else dictGet rest k

/-- Models Python `d.get(k, default)`. -/
def dictGetD (m : List (String × Rat)) (k : String) (d : Rat) : Rat :=
  (dictGet m k).getD d

/-- Models Python dict assignment `d[k] = v` (insert or overwrite). -/
def dictInsert {α : Type} (m : List (String × α)) (k : String) (v : α) :
    List (String × α) :=
  (k, v) :: m.filter (fun p => p.1 ≠ k)

/-- Floor of a rational, computed from numerator and denominator so that
concrete values evaluate by kernel reduction. -/
def ratFloor (x : Rat) : Int := Int.ediv x.num x.den

/-- Rounding to the nearest integer with ties to even, as Python `round`. -/
def roundHalfEven (x : Rat) : Int :=
  let f := ratFloor x
  if x - f < 1 / 2 then f
  else if 1 / 2 < x - f then f + 1
  else if f % 2 = 0 then f else f + 1

/-- Models Python `round(x, 1)`. -/
def round1 (x : Rat) : Rat :=
  (roundHalfEven (x * 10) : Rat) / 10

/-- The aggregated metrics dict passed between the analysis functions:
`voice_metrics`, `facial_metrics` and `teaching_metrics` keep their numeric
entries; the `emotion` string entry of `facial_metrics` is carried in a
separate field because the Lean map is homogeneous. -/
structure Metrics where
  voice_metrics : List (String × Rat)
  emotion : String
  facial_metrics : List (String × Rat)
  teaching_metrics : List (String × Rat)
deriving DecidableEq

/-- One stored `assessment_data` row fed to `_aggregate_metrics`. -/
structure DataPoint where
  voice_metrics : List (String × Rat)
  facial_metrics : List (String × Rat)
  teaching_metrics : List (String × Rat)
deriving DecidableEq

/-- A recommendation record as built by `RecommendationEngine`. -/
structure Recommendation where
  category : String
  priority : String
  title : String
  description : String
deriving DecidableEq

/-- `AssessmentResult`; `detailed_analysis` is `none` when the source puts
the empty dict there (the fallback result), `some` of the aggregated
metrics otherwise. -/
structure AssessmentResult where
  assessment_id : String
  overall_score : Rat
  eligibility : String
  recommendations : List Recommendation
  detailed_analysis : Option Metrics
deriving DecidableEq

/-- `AIAnalysisEngine._calculate_teaching_metrics`: note the source reads
`facial_metrics.get('engagement', 50)` (key `engagement`, default 50) and
clamps only from above with `min(100, ...)`. Returns the
`teaching_metrics` dict. -/
def calculate_teaching_metrics (voice_metrics facial_metrics : List (String × Rat)) :
    List (String × Rat) :=
  let interaction_score :=
    min 100 ((dictGetD voice_metrics "confidence" 50 +
      dictGetD facial_metrics "engagement" 50) / 2)
  let example_usage := min 100 (dictGetD voice_metrics "clarity" 50 + 20)
  let student_engagement := min 100 (dictGetD facial_metrics "engagement" 50 + 15)
  [("interaction_level", round1 interaction_score),
   ("example_usage", round1 example_usage),
   ("student_engagement", round1 student_engagement)]

/-- `AIAnalysisEngine._aggregate_metrics`: the source ignores its
`data_points` argument and returns fixed constants. -/
def aggregate_metrics (data_points : List DataPoint) : Metrics :=
  { voice_metrics :=
      [("confidence", 75), ("volume", 70), ("clarity", 80), ("audibility", 75)],
    emotion := "confident",
    facial_metrics := [("engagement_level", 78), ("expression_variety", 72)],
    teaching_metrics :=
      [("interaction_level", 76), ("example_usage", 82), ("student_engagement", 74)] }

/-- `AIAnalysisEngine._calculate_overall_score`: direct `d[k]` indexing, so
a missing key raises `KeyError`, modelled by the `Option.bind` chain
producing `none`. -/
def calculate_overall_score (metrics : Metrics) : Option Rat :=
  (dictGet metrics.voice_metrics "confidence").bind fun cf =>
  (dictGet metrics.voice_metrics "audibility").bind fun au =>
  (dictGet metrics.voice_metrics "clarity").bind fun cl =>
  (dictGet metrics.facial_metrics "engagement_level").bind fun el =>
  (dictGet metrics.facial_metrics "expression_variety").bind fun ev =>
  (dictGet metrics.teaching_metrics "interaction_level").bind fun il =>
  (dictGet metrics.teaching_metrics "example_usage").bind fun eu =>
  (dictGet metrics.teaching_metrics "student_engagement").bind fun se =>
  let voice_score := cf * 0.3 + au * 0.4 + cl * 0.3
  let facial_score := el * 0.6 + ev * 0.4
  let teaching_score := il * 0.4 + eu * 0.3 + se * 0.3
  some (round1 (voice_score * 0.4 + facial_score * 0.3 + teaching_score * 0.3))

/-- `AIAnalysisEngine._determine_eligibility`. -/
def determine_eligibility (score : Rat) : String :=
  if score ≥ 85 then "eligible"
  else if score ≥ 70 then "needs-improvement"
  else "not-eligible"

/-- `AIAnalysisEngine._get_fallback_result`. -/
def get_fallback_result (assessment_id : String) : AssessmentResult :=
  { assessment_id := assessment_id,
    overall_score := 75,
    eligibility := "needs-improvement",
    recommendations :=
      [{ category := "general", priority := "medium",
         title := "Continue Practice",
         description := "Keep practicing teaching techniques" }],
    detailed_analysis := none }

/-- `RecommendationEngine.generate_recommendations`: five independent
checks, each `metrics.get(key, 100) < threshold`, appending in the listed
order. -/
def generate_recommendations (metrics : Metrics) : List Recommendation :=
  (if dictGetD metrics.voice_metrics "confidence" 100 < 70 then
    [{ category := "voice", priority := "high",
       title := "Improve Voice Confidence",
       description :=
         "Practice speaking exercises and breathing techniques to build confidence." }]
   else []) ++
  (if dictGetD metrics.voice_metrics "audibility" 100 < 75 then
    [{ category := "voice", priority := "high",
       title := "Enhance Voice Projection",
       description :=
         "Work on projecting your voice to ensure all students can hear clearly." }]
   else []) ++
  (if dictGetD metrics.facial_metrics "engagement_level" 100 < 70 then
    [{ category := "engagement", priority := "medium",
       title := "Increase Facial Expressiveness",
       description := "Use more facial expressions and gestures to engage students." }]
   else []) ++
  (if dictGetD metrics.teaching_metrics "interaction_level" 100 < 80 then
    [{ category := "teaching", priority := "medium",
       title := "Increase Student Interaction",
       description := "Ask more questions and encourage student participation." }]
   else []) ++
  (if dictGetD metrics.teaching_metrics "example_usage" 100 < 75 then
    [{ category := "teaching", priority := "low",
       title := "Use More Examples",
       description := "Include more real-world examples to illustrate concepts." }]
   else [])

/-- `AIAnalysisEngine.generate_final_report`: the stored rows for the
session are passed in place of the database read. An empty row set raises
`ValueError`, and any exception (including a `KeyError` from the score
computation) is caught by the enclosing try/except, which returns the
fallback result. -/
def generate_final_report (assessment_id : String) (data_points : List DataPoint) :
    AssessmentResult :=
  if data_points.isEmpty then get_fallback_result assessment_id
  else
    let aggregated_metrics := aggregate_metrics data_points
    match calculate_overall_score aggregated_metrics with
    | none => get_fallback_result assessment_id
    | some overall_score =>
      { assessment_id := assessment_id,
        overall_score := overall_score,
        eligibility := determine_eligibility overall_score,
        recommendations := generate_recommendations aggregated_metrics,
        detailed_analysis := some aggregated_metrics }

/-- Opaque WebSocket connection handle. -/
abbrev Conn := Nat

/-- `ConnectionManager` state: the list of accepted connections and the
per-assessment dict, which holds at most one connection per id. -/
structure ConnectionManager where
  active_connections : List Conn
  assessment_connections : List (String × Conn)
deriving DecidableEq

/-- The manager created with empty registries. -/
def emptyManager : ConnectionManager :=
  { active_connections := [], assessment_connections := [] }

/-- `ConnectionManager.connect`: appends to `active_connections` and, when
an assessment id is given, assigns `assessment_connections[id] = ws`,
overwriting any previous entry for that id. -/
def ConnectionManager.connect (self : ConnectionManager) (websocket : Conn)
    (assessment_id : Option String) : ConnectionManager :=
  let afterAccept :=
    { self with active_connections := self.active_connections ++ [websocket] }
  match assessment_id with
  | some aid =>
    { afterAccept with
      assessment_connections :=
        dictInsert afterAccept.assessment_connections aid websocket }
  | none => afterAccept

/-- `ConnectionManager.disconnect`. -/
def ConnectionManager.disconnect (self : ConnectionManager) (websocket : Conn)
    (assessment_id : Option String) : ConnectionManager :=
  let afterRemove :=
    { self with active_connections := self.active_connections.erase websocket }
  match assessment_id with
  | some aid =>
    match dictGet afterRemove.assessment_connections aid with
    | some _ =>
      { afterRemove with
        assessment_connections :=
          afterRemove.assessment_connections.filter (fun p => p.1 ≠ aid) }
    | none => afterRemove
  | none => afterRemove

/-- `ConnectionManager.send_to_assessment`: returns the unchanged manager
together with the deliveries performed (connection, message). The dict
holds at most one connection per id, so at most one delivery happens. -/
def ConnectionManager.send_to_assessment (self : ConnectionManager)
    (assessment_id : String) (message : String) :
    ConnectionManager × List (Conn × String) :=
  match dictGet self.assessment_connections assessment_id with
  | some ws => (self, [(ws, message)])
  | none => (self, [])

/-! Spec-side definitions, written from the specification text, for
comparison with the source embeddings above. -/

/-- The overall-score formula exactly as the spec states it: the weighted
blend of voice, facial and teaching scores, rounded to one decimal. -/
def spec_overall_formula (cf au cl el ev il eu se : Rat) : Rat :=
  round1 ((cf * 0.3 + au * 0.4 + cl * 0.3) * 0.4 +
    (el * 0.6 + ev * 0.4) * 0.3 +
    (il * 0.4 + eu * 0.3 + se * 0.3) * 0.3)

/-- The metric values a recommendation rule inspects. -/
structure RuleInput where
  confidence : Rat
  audibility : Rat
  engagement_level : Rat
  interaction_level : Rat
  example_usage : Rat

/-- The rule table of the spec: condition and produced recommendation, in
the listed evaluation order. -/
def spec_rule_table : List ((RuleInput → Bool) × Recommendation) :=
  [(fun v => decide (v.confidence < 70),
    { category := "voice", priority := "high",
      title := "Improve Voice Confidence",
      description :=
        "Practice speaking exercises and breathing techniques to build confidence." }),
   (fun v => decide (v.audibility < 75),
    { category := "voice", priority := "high",
      title := "Enhance Voice Projection",
      description :=
        "Work on projecting your voice to ensure all students can hear clearly." }),
   (fun v => decide (v.engagement_level < 70),
    { category := "engagement", priority := "medium",
      title := "Increase Facial Expressiveness",
      description := "Use more facial expressions and gestures to engage students." }),
   (fun v => decide (v.interaction_level < 80),
    { category := "teaching", priority := "medium",
      title := "Increase Student Interaction",
      description := "Ask more questions and encourage student participation." }),
   (fun v => decide (v.example_usage < 75),
    { category := "teaching", priority := "low",
      title := "Use More Examples",
      description := "Include more real-world examples to illustrate concepts." })]

/-- The recommendations of exactly the triggered rules, in table order. -/
def spec_recommendations (v : RuleInput) : List Recommendation :=
  (spec_rule_table.filter (fun r => r.1 v)).map Prod.snd

/-- Helper: the floor of an integer rational is that integer. -/
theorem ratFloor_intCast (n : Int) : ratFloor (n : Rat) = n := by
  simp only [ratFloor, Rat.num_intCast, Rat.den_intCast, Nat.cast_one]
  exact Int.ediv_one n

/-- Helper: rounding an integer rational returns it unchanged. -/
theorem roundHalfEven_intCast (n : Int) : roundHalfEven (n : Rat) = n := by
  simp [roundHalfEven, ratFloor_intCast]

/-- Helper: one-decimal rounding of an integer rational is the identity. -/
theorem round1_intCast (n : Int) : round1 (n : Rat) = n := by
  have hc : ((n : Rat) * 10) = ((n * 10 : Int) : Rat) := by push_cast; ring
  rw [round1, hc, roundHalfEven_intCast]
  push_cast
  ring

/-- C1: for every snapshot whose metric maps contain all the named keys,
the overall score equals the weighted blend of the spec formula, rounded
to one decimal place. -/
theorem overall_score_matches_spec_formula (m : Metrics) (cf au cl el ev il eu se : Rat)
    (hcf : dictGet m.voice_metrics "confidence" = some cf)
    (hau : dictGet m.voice_metrics "audibility" = some au)
    (hcl : dictGet m.voice_metrics "clarity" = some cl)
    (hel : dictGet m.facial_metrics "engagement_level" = some el)
    (hev : dictGet m.facial_metrics "expression_variety" = some ev)
    (hil : dictGet m.teaching_metrics "interaction_level" = some il)
    (heu : dictGet m.teaching_metrics "example_usage" = some eu)
    (hse : dictGet m.teaching_metrics "student_engagement" = some se) :
    calculate_overall_score m = some (spec_overall_formula cf au cl el ev il eu se) := by
  simp only [calculate_overall_score, hcf, hau, hcl, hel, hev, hil, heu, hse,
    Option.some_bind, spec_overall_formula, Option.some.injEq]

/-- Witness for C1 at the concrete aggregated snapshot of the source. -/
theorem overall_score_matches_spec_formula_witness :
    calculate_overall_score (aggregate_metrics []) =
      some (spec_overall_formula 75 75 80 78 72 76 82 74) :=
  overall_score_matches_spec_formula (aggregate_metrics []) 75 75 80 78 72 76 82 74
    rfl rfl rfl rfl rfl rfl rfl rfl

/-- C3: eligibility tiers with inclusive lower bounds, plus the stated
boundary points 85.0, 84.9 and 69.9. -/
theorem eligibility_tiers (s : Rat) :
    (85 ≤ s → determine_eligibility s = "eligible") ∧
    (70 ≤ s ∧ s < 85 → determine_eligibility s = "needs-improvement") ∧
    (s < 70 → determine_eligibility s = "not-eligible") ∧
    determine_eligibility 85 = "eligible" ∧
    determine_eligibility 84.9 = "needs-improvement" ∧
    determine_eligibility 69.9 = "not-eligible" := by
  refine ⟨?_, ?_, ?_, by norm_num [determine_eligibility],
    by norm_num [determine_eligibility], by norm_num [determine_eligibility]⟩
  · intro h
    simp [determine_eligibility, ge_iff_le, h]
  · rintro ⟨h1, h2⟩
    have hn : ¬(85 ≤ s) := not_le.mpr h2
    simp [determine_eligibility, ge_iff_le, hn, h1]
  · intro h
    have hn1 : ¬(85 ≤ s) := not_le.mpr (lt_of_lt_of_le h (by norm_num))
    have hn2 : ¬(70 ≤ s) := not_le.mpr h
    simp [determine_eligibility, ge_iff_le, hn1, hn2]

/-- Witness for C3 at the concrete score 90. -/
theorem eligibility_tiers_witness : determine_eligibility 90 = "eligible" :=
  (eligibility_tiers 90).1 (by norm_num)

/-- C9: scoring is deterministic; identical snapshots yield the identical
score and the identical eligibility tier. -/
theorem scoring_deterministic (m1 m2 : Metrics) (h : m1 = m2) :
    calculate_overall_score m1 = calculate_overall_score m2 ∧
    (calculate_overall_score m1).map determine_eligibility =
      (calculate_overall_score m2).map determine_eligibility := by
  subst h
  exact ⟨rfl, rfl⟩

/-- Witness for C9 at the concrete aggregated snapshot. -/
theorem scoring_deterministic_witness :
    calculate_overall_score (aggregate_metrics []) =
      calculate_overall_score (aggregate_metrics []) ∧
    (calculate_overall_score (aggregate_metrics [])).map determine_eligibility =
      (calculate_overall_score (aggregate_metrics [])).map determine_eligibility :=
  scoring_deterministic (aggregate_metrics []) (aggregate_metrics []) rfl

/-- C10: when no stored data points exist for the session, the report
generator swallows the error and returns the fixed fallback result: score
75.0, needs-improvement, one generic Continue Practice recommendation and
an empty detailed analysis. -/
theorem final_report_fallback_on_no_data (aid : String) :
    generate_final_report aid [] =
      { assessment_id := aid, overall_score := 75,
        eligibility := "needs-improvement",
        recommendations :=
          [{ category := "general", priority := "medium",
             title := "Continue Practice",
             description := "Keep practicing teaching techniques" }],
        detailed_analysis := none } := rfl

/-- A stored sample whose every metric value is 0. -/
def sampleAllZero : DataPoint :=
  { voice_metrics :=
      [("confidence", 0), ("volume", 0), ("clarity", 0), ("audibility", 0)],
    facial_metrics := [("engagement_level", 0), ("expression_variety", 0)],
    teaching_metrics :=
      [("interaction_level", 0), ("example_usage", 0), ("student_engagement", 0)] }

/-- A stored sample whose every metric value is 100. -/
def sampleAllHundred : DataPoint :=
  { voice_metrics :=
      [("confidence", 100), ("volume", 100), ("clarity", 100), ("audibility", 100)],
    facial_metrics := [("engagement_level", 100), ("expression_variety", 100)],
    teaching_metrics :=
      [("interaction_level", 100), ("example_usage", 100), ("student_engagement", 100)] }

/-- C2: the aggregation ignores the ingested samples. A session holding a
single all-zero sample and a session holding a single all-hundred sample
aggregate to the same snapshot, whose confidence is the constant 75 rather
than the running mean 0 (respectively 100) of the ingested values. -/
theorem aggregation_ignores_samples :
    aggregate_metrics [sampleAllZero] = aggregate_metrics [sampleAllHundred] ∧
    dictGet (aggregate_metrics [sampleAllZero]).voice_metrics "confidence" = some 75 ∧
    dictGet (aggregate_metrics [sampleAllZero]).voice_metrics "confidence" ≠ some 0 ∧
    dictGet (aggregate_metrics [sampleAllHundred]).voice_metrics "confidence" ≠ some 100 :=
  ⟨rfl, rfl, by decide, by decide⟩

/-- C4: at the end-to-end example of the spec (voice confidence 60,
clarity 65, facial engagement_level 60) the source derives teaching
metrics interaction_level 55, example_usage 85 and student_engagement 65:
it reads the facial key engagement (absent, so the default 50 applies)
instead of engagement_level, diverging from the documented expectation
60 / 85 / 75. -/
theorem teaching_metrics_spec_example_divergence :
    calculate_teaching_metrics
      [("confidence", 60), ("volume", 60), ("clarity", 65), ("audibility", 70)]
      [("engagement_level", 60), ("expression_variety", 60)] =
      [("interaction_level", 55), ("example_usage", 85), ("student_engagement", 65)] ∧
    calculate_teaching_metrics
      [("confidence", 60), ("volume", 60), ("clarity", 65), ("audibility", 70)]
      [("engagement_level", 60), ("expression_variety", 60)] ≠
      [("interaction_level", 60), ("example_usage", 85), ("student_engagement", 75)] := by
  have h55 : round1 (55 : Rat) = 55 := by
    have h := round1_intCast 55; norm_num at h; exact h
  have h85 : round1 (85 : Rat) = 85 := by
    have h := round1_intCast 85; norm_num at h; exact h
  have h65 : round1 (65 : Rat) = 65 := by
    have h := round1_intCast 65; norm_num at h; exact h
  have hdcf : dictGet
      [("confidence", (60 : Rat)), ("volume", 60), ("clarity", 65), ("audibility", 70)]
      "confidence" = some 60 := rfl
  have hdcl : dictGet
      [("confidence", (60 : Rat)), ("volume", 60), ("clarity", 65), ("audibility", 70)]
      "clarity" = some 65 := rfl
  have hdeng : dictGet
      [("engagement_level", (60 : Rat)), ("expression_variety", 60)]
      "engagement" = none := rfl
  have hm : calculate_teaching_metrics
      [("confidence", 60), ("volume", 60), ("clarity", 65), ("audibility", 70)]
      [("engagement_level", 60), ("expression_variety", 60)] =
      [("interaction_level", 55), ("example_usage", 85), ("student_engagement", 65)] := by
    simp only [calculate_teaching_metrics, dictGetD, hdcf, hdcl, hdeng,
      Option.getD_some, Option.getD_none]
    norm_num [min_def, h55, h85, h65]
  refine ⟨hm, ?_⟩
  rw [hm]
  intro hcontra
  have : (55 : Rat) = 60 := by
    simpa using congrArg (fun l => (l.headI : String × Rat).2) hcontra
  norm_num at this

/-- C5: the recommendations are exactly those of the triggered rules of
the spec rule table, in table order, and the empty sequence when no rule
fires. -/
theorem recommendations_match_rule_table (m : Metrics) (v : RuleInput)
    (hcf : dictGet m.voice_metrics "confidence" = some v.confidence)
    (hau : dictGet m.voice_metrics "audibility" = some v.audibility)
    (hel : dictGet m.facial_metrics "engagement_level" = some v.engagement_level)
    (hil : dictGet m.teaching_metrics "interaction_level" = some v.interaction_level)
    (heu : dictGet m.teaching_metrics "example_usage" = some v.example_usage) :
    generate_recommendations m = spec_recommendations v ∧
    ((∀ r ∈ spec_rule_table, r.1 v = false) → generate_recommendations m = []) := by
  have heq : generate_recommendations m = spec_recommendations v := by
    simp only [spec_recommendations, spec_rule_table, List.filter_cons, List.filter_nil,
      decide_eq_true_eq, generate_recommendations, dictGetD, hcf, hau, hel, hil, heu,
      Option.getD_some]
    split_ifs <;> simp
  refine ⟨heq, fun hall => ?_⟩
  rw [heq]
  have hnil : spec_rule_table.filter (fun r => r.1 v) = [] :=
    List.filter_eq_nil_iff.mpr fun r hr => by simp [hall r hr]
  simp [spec_recommendations, hnil]

/-- Witness for C5 at the concrete aggregated snapshot, where only the
interaction rule fires. -/
theorem recommendations_match_rule_table_witness :
    generate_recommendations (aggregate_metrics []) =
      spec_recommendations ⟨75, 75, 78, 76, 82⟩ ∧
    ((∀ r ∈ spec_rule_table, r.1 ⟨75, 75, 78, 76, 82⟩ = false) →
      generate_recommendations (aggregate_metrics []) = []) :=
  recommendations_match_rule_table (aggregate_metrics []) ⟨75, 75, 78, 76, 82⟩
    rfl rfl rfl rfl rfl

/-- Counterexample to C6: on a snapshot with empty metric maps the score
computation raises a KeyError (modelled as none) instead of returning a
value computed from the fallback defaults. -/
theorem overall_score_missing_key_raises :
    calculate_overall_score
      { voice_metrics := [], emotion := "neutral",
        facial_metrics := [], teaching_metrics := [] } = none := rfl

/-- Helper: an Option bind is none when the continuation is constantly
none. -/
theorem bind_none_of {α β : Type} (o : Option α) (f : α → Option β)
    (h : ∀ a, f a = none) : o.bind f = none := by
  cases o with
  | none => rfl
  | some a => exact h a

/-- C6 as amended: a snapshot missing any one of the eight required metric
keys makes the score computation raise (none), with no substitution of
fallback defaults; the enclosing report generator catches the error and
returns the fixed fallback result. -/
theorem overall_score_requires_all_keys (m : Metrics)
    (h : dictGet m.voice_metrics "confidence" = none ∨
      dictGet m.voice_metrics "audibility" = none ∨
      dictGet m.voice_metrics "clarity" = none ∨
      dictGet m.facial_metrics "engagement_level" = none ∨
      dictGet m.facial_metrics "expression_variety" = none ∨
      dictGet m.teaching_metrics "interaction_level" = none ∨
      dictGet m.teaching_metrics "example_usage" = none ∨
      dictGet m.teaching_metrics "student_engagement" = none) :
    calculate_overall_score m = none := by
  unfold calculate_overall_score
  rcases h with h | h | h | h | h | h | h | h
  · rw [h]; rfl
  · exact bind_none_of _ _ fun cf => by rw [h]; rfl
  · exact bind_none_of _ _ fun cf => bind_none_of _ _ fun au => by rw [h]; rfl
  · exact bind_none_of _ _ fun cf => bind_none_of _ _ fun au =>
      bind_none_of _ _ fun cl => by rw [h]; rfl
  · exact bind_none_of _ _ fun cf => bind_none_of _ _ fun au =>
      bind_none_of _ _ fun cl => bind_none_of _ _ fun el => by rw [h]; rfl
  · exact bind_none_of _ _ fun cf => bind_none_of _ _ fun au =>
      bind_none_of _ _ fun cl => bind_none_of _ _ fun el =>
      bind_none_of _ _ fun ev => by rw [h]; rfl
  · exact bind_none_of _ _ fun cf => bind_none_of _ _ fun au =>
      bind_none_of _ _ fun cl => bind_none_of _ _ fun el =>
      bind_none_of _ _ fun ev => bind_none_of _ _ fun il => by rw [h]; rfl
  · exact bind_none_of _ _ fun cf => bind_none_of _ _ fun au =>
      bind_none_of _ _ fun cl => bind_none_of _ _ fun el =>
      bind_none_of _ _ fun ev => bind_none_of _ _ fun il =>
      bind_none_of _ _ fun eu => by rw [h]; rfl

/-- Witness for the amended C6 at a snapshot with empty maps. -/
theorem overall_score_requires_all_keys_witness :
    calculate_overall_score
      { voice_metrics := [], emotion := "neutral",
        facial_metrics := [], teaching_metrics := [] } = none :=
  overall_score_requires_all_keys
    { voice_metrics := [], emotion := "neutral",
      facial_metrics := [], teaching_metrics := [] } (Or.inl rfl)

/-- A manager on which observer 1 and then observer 2 both connected for
session S1, with no disconnects. -/
def twoObserversManager : ConnectionManager :=
  (emptyManager.connect 1 (some "S1")).connect 2 (some "S1")

/-- Counterexample to C7: with observers 1 and 2 both connected for S1
and never disconnected, publishing delivers only to observer 2 (the later
registration overwrote the dict entry of observer 1), while observer 1 is
still an active connection and receives nothing. -/
theorem publish_two_observers_counterexample :
    (twoObserversManager.send_to_assessment "S1" "update").2 = [(2, "update")] ∧
    (1, "update") ∉ (twoObserversManager.send_to_assessment "S1" "update").2 ∧
    1 ∈ twoObserversManager.active_connections := by
  refine ⟨rfl, ?_, by decide⟩
  intro hmem
  have h2 : ((twoObserversManager.send_to_assessment "S1" "update").2 :
      List (Conn × String)) = [(2, "update")] := rfl
  rw [h2] at hmem
  simp at hmem

/-- C7 as amended: the assessment dict keeps at most one connection per
session id, so after two connects for the same id, publishing delivers the
event only to the most recently connected observer. -/
theorem publish_delivers_to_latest_registration (st : ConnectionManager)
    (c1 c2 : Conn) (sid msg : String) (h : c1 ≠ c2) :
    (((st.connect c1 (some sid)).connect c2 (some sid)).send_to_assessment sid msg).2 =
      [(c2, msg)] ∧
    (c1, msg) ∉
      (((st.connect c1 (some sid)).connect c2 (some sid)).send_to_assessment sid msg).2 := by
  have hlook :
      dictGet ((st.connect c1 (some sid)).connect c2 (some sid)).assessment_connections
        sid = some c2 := by
    simp [ConnectionManager.connect, dictInsert, dictGet]
  constructor
  · simp [ConnectionManager.send_to_assessment, hlook]
  · simp [ConnectionManager.send_to_assessment, hlook, h]

/-- Witness for the amended C7 at concrete observers 1 and 2. -/
theorem publish_delivers_to_latest_registration_witness :
    ((((emptyManager.connect 1 (some "S1")).connect 2
        (some "S1")).send_to_assessment "S1" "update").2 = [(2, "update")] ∧
    (1, "update") ∉
      (((emptyManager.connect 1 (some "S1")).connect 2
        (some "S1")).send_to_assessment "S1" "update").2) :=
  publish_delivers_to_latest_registration emptyManager 1 2 "S1" "update" (by decide)

/-- C8: publishing to a session id with no registered connection delivers
nothing, raises no error, and leaves the manager state unchanged. -/
theorem publish_no_subscribers_noop (st : ConnectionManager) (sid msg : String)
    (h : dictGet st.assessment_connections sid = none) :
    st.send_to_assessment sid msg = (st, []) := by
  simp [ConnectionManager.send_to_assessment, h]

/-- Witness for C8 on the empty manager. -/
theorem publish_no_subscribers_noop_witness :
    emptyManager.send_to_assessment "S1" "update" = (emptyManager, []) :=
  publish_no_subscribers_noop emptyManager "S1" "update" rfl

end TeacherAssessment
